import Mathlib

/-!
Verification of the GitHub Trending Scout scoring and categorization engine.

Shallow embedding of the core logic of `functions.py`, `test.py` and
`main.py`: the `GitHubTrendingScanner` class (quota-guarded repository
search, interest scoring, category scanning) and the stand-alone
`get_repos` helper of `main.py`.

Modelling conventions:
* Python floats are modelled as exact rationals (`ℚ`); all weights in the
  scoring code are decimal literals, written here as the same rationals.
* A repository JSON dict is modelled by the `Repo` structure.  Fields read
  with `dict.get(key, default)` are `Option`-valued; the `getD` defaults in
  the definitions mirror the defaults in the source.
* The pair (fixed current instant, `created_at` string) is abstracted by
  the field `days_old : Option ℤ`: `some d` means `created_at` parses with
  `datetime.strptime` and `(datetime.now() - created_date).days = d` at the
  fixed instant (negative for future-dated repositories); `none` means the
  key is missing or the string does not parse (the bare `except:` branch).
* The network is an oracle: every entry point takes a `NetOutcome`
  describing what the single `requests.get` call would do.  Python
  exceptions are modelled with `Except PyErr`; a `try/except` block is a
  `match` on the propagated `Except` value.
* `st.warning` / `st.error` calls are modelled by the list of `Msg` values
  an operation emits; the number of HTTP requests issued is tracked in the
  `netRequests` field.
* The `datetime.now() - timedelta(days_back)` / `strftime` computation of
  `scan_trending_by_category` is abstracted by the `date_threshold : String`
  parameter (a pure function of the fixed instant and the lookback value).
-/

namespace GithubScout

/-- A repository record as consumed by the scanner (a JSON dict).
`Option` fields model possibly-missing dict keys; see the module comment
for `days_old`. -/
structure Repo where
  stargazers_count : Option ℤ
  forks_count : Option ℤ
  watchers_count : Option ℤ
  open_issues_count : Option ℤ
  has_wiki : Option Bool
  topics : Option (List String)
  language : Option String
  days_old : Option ℤ
deriving Repr, DecidableEq

/-- The four quantities interpolated into the reasoning f-string
`"Pop: {...}, Activity: {...}, Recency: {...}, Lang: {...}"`.  The fixed
template and the float formatting are abstracted to the exact values. -/
structure Reasoning where
  pop : ℚ
  activity : ℚ
  recency : ℚ
  lang : ℚ
deriving Repr, DecidableEq

/-- The dict `{'repo': ..., 'score': ..., 'reasoning': ...}` returned by
`calculate_interest_score`. -/
structure ScoredRepo where
  repo : Repo
  score : ℚ
  reasoning : Reasoning
deriving Repr, DecidableEq

namespace FunctionsPy

/-- The `language_multipliers` dict of `functions.py`, as the function a
Python dict lookup with default (`dict.get(key)` / `None` key absent)
denotes. -/
def language_multipliers (lang : Option String) : ℚ :=
  match lang with
  | none => 1
  | some s =>
    if s = "JavaScript" then 12/10
    else if s = "Python" then 13/10
    else if s = "TypeScript" then 11/10
    else if s = "Go" then 1
    else if s = "Rust" then 14/10
    else if s = "Swift" then 9/10
    else if s = "Kotlin" then 8/10
    else if s = "Java" then 11/10
    else if s = "C++" then 1
    else if s = "C#" then 9/10
    else if s = "PHP" then 8/10
    else 1

/-- Lines 117-122 of `functions.py`: the recency multiplier.
`max(0.1, 1.0 - (days_old / 365))` when `created_at` parses (with
`days_old` the whole-day difference to the fixed instant), `0.5` on the
`except:` branch (missing or unparsable `created_at`). -/
def recency_multiplier (days_old : Option ℤ) : ℚ :=
  match days_old with
  | some d => max (1/10) (1 - (d : ℚ) / 365)
  | none => 1/2

/-- Method `GitHubTrendingScanner.calculate_interest_score` of `functions.py`
(lines 109-145). -/
def calculate_interest_score (repo : Repo) : ScoredRepo :=
  let base_popularity : ℚ :=
    ((repo.stargazers_count.getD 0 : ℤ) : ℚ) * 1 +
    ((repo.forks_count.getD 0 : ℤ) : ℚ) * 2 +
    ((repo.watchers_count.getD 0 : ℤ) : ℚ) * (3/2)
  let recency := recency_multiplier repo.days_old
  let activity_score : ℚ :=
    ((repo.open_issues_count.getD 0 : ℤ) : ℚ) * (1/10) +
    (if repo.has_wiki.getD false then 10 else 0) +
    ((repo.topics.getD []).length : ℚ) * 5
  let language_boost := language_multipliers repo.language
  let final_score := (base_popularity + activity_score) * recency * language_boost
  { repo := repo
    score := final_score
    reasoning :=
      { pop := base_popularity
        activity := activity_score
        recency := recency
        lang := language_boost } }

end FunctionsPy

/-- What the single `requests.get` call of a search operation would do:
either an HTTP response arrives (with a status code and the optional
`items` array of the JSON body), or the call raises a timeout, or it
raises some other requests exception. -/
inductive NetOutcome where
  | response (status : ℤ) (items : Option (List Repo))
  | timeout
  | exn (msg : String)
deriving Repr, DecidableEq

/-- A Python exception value, as far as this program can observe one. -/
inductive PyErr where
  | httpError (status : ℤ)
  | keyError
  | timeoutError
  | requestException (msg : String)
deriving Repr, DecidableEq

/-- The `str(e)` rendering used in the generic `except` branches. -/
def PyErr.str : PyErr → String
  | .httpError status => "HTTPError " ++ toString status
  | .keyError => "KeyError"
  | .timeoutError => "Timeout"
  | .requestException msg => msg

/-- Call `requests.get(...)` against the search endpoint: returns the response
(status code and optional `items` array) or raises. -/
def requestsGet (o : NetOutcome) : Except PyErr (ℤ × Option (List Repo)) :=
  match o with
  | .response status items => .ok (status, items)
  | .timeout => .error .timeoutError
  | .exn msg => .error (.requestException msg)

/-- A `st.warning` / `st.error` notice emitted by the scanner, one
constructor per call site in the source. -/
inductive Msg where
  | warnRateLimitLow
  | errRateLimitExceeded
  | errInvalidQuery (query : String)
  | errApiError (status : ℤ)
  | errTimeout
  | errFetching (msg : String)
  | errUnknownCategory (category : String)
deriving Repr, DecidableEq

/-- Result of one `search_repositories` call: the returned list, the new
`self.rate_limit_remaining`, how many HTTP requests were issued, and the
notices shown. -/
structure SearchOutput where
  result : List Repo
  rate_limit_remaining : ℤ
  netRequests : ℕ
  msgs : List Msg
deriving Repr, DecidableEq

/-- Result of one `scan_trending_by_category` call. -/
structure ScanOutput where
  result : List ScoredRepo
  rate_limit_remaining : ℤ
  netRequests : ℕ
  msgs : List Msg
deriving Repr, DecidableEq

namespace FunctionsPy

/-- Method `GitHubTrendingScanner.search_repositories` of `functions.py`
(lines 58-94).  `rate_limit_remaining` is the scanner field before the
call; the value type `Except PyErr SearchOutput` makes the try/except
structure explicit: `body` is the `try` body (in which `requestsGet` can
raise and whose exception it propagates) and the outer `match` is the
chain of `except` clauses. -/
def search_repositories (rate_limit_remaining : ℤ) (query : String)
    (o : NetOutcome) : Except PyErr SearchOutput :=
  if rate_limit_remaining ≤ 5 then
    .ok ⟨[], rate_limit_remaining, 0, [.warnRateLimitLow]⟩
  else
    let body : Except PyErr SearchOutput :=
      match requestsGet o with
      | .ok (status, items) =>
        if status = 200 then
          .ok ⟨items.getD [], rate_limit_remaining - 1, 1, []⟩
        else if status = 403 then
          .ok ⟨[], rate_limit_remaining, 1, [.errRateLimitExceeded]⟩
        else if status = 422 then
          .ok ⟨[], rate_limit_remaining, 1, [.errInvalidQuery query]⟩
        else
          .ok ⟨[], rate_limit_remaining, 1, [.errApiError status]⟩
      | .error e => .error e
    match body with
    | .ok out => .ok out
    | .error .timeoutError => .ok ⟨[], rate_limit_remaining, 1, [.errTimeout]⟩
    | .error e => .ok ⟨[], rate_limit_remaining, 1, [.errFetching (PyErr.str e)]⟩

/-- The `queries` dict of `scan_trending_by_category` (lines 151-161),
parameterized by the already-formatted `date_threshold` string. -/
def queries (date_threshold : String) (category : String) : Option String :=
  if category = "newly_created" then
    some ("created:>" ++ date_threshold)
  else if category = "recently_active" then
    some ("pushed:>" ++ date_threshold ++ " stars:>10")
  else if category = "hot_topics" then
    some ("good-first-issues:>0 created:>" ++ date_threshold)
  else if category = "ai_ml_trending" then
    some ("topic:machine-learning created:>" ++ date_threshold)
  else if category = "web_dev_trending" then
    some ("topic:react created:>" ++ date_threshold)
  else if category = "devops_trending" then
    some ("topic:docker created:>" ++ date_threshold)
  else if category = "mobile_trending" then
    some ("topic:android created:>" ++ date_threshold)
  else if category = "breaking_out" then
    some ("stars:100..1000 created:>" ++ date_threshold)
  else if category = "hidden_gems" then
    some ("stars:10..100 forks:>5 created:>" ++ date_threshold)
  else
    none

/-- The comparison underlying `sorted(scored_repos, key=lambda x: x['score'],
reverse=True)`: `a` may precede `b` when `b.score ≤ a.score`. -/
def scoreLE (a b : ScoredRepo) : Bool := decide (b.score ≤ a.score)

/-- Method `GitHubTrendingScanner.scan_trending_by_category` of `functions.py`
(lines 147-174).  Python's `sorted` with `reverse=True` is the stable
descending sort, modelled by `List.mergeSort` with `scoreLE` (stable for
that comparison and sorting descending by score; a stable sort for a given
total preorder is unique). -/
def scan_trending_by_category (rate_limit_remaining : ℤ) (category : String)
    (date_threshold : String) (o : NetOutcome) : Except PyErr ScanOutput :=
  match queries date_threshold category with
  | none => .ok ⟨[], rate_limit_remaining, 0, [.errUnknownCategory category]⟩
  | some q =>
    match search_repositories rate_limit_remaining q o with
    | .error e => .error e
    | .ok s =>
      .ok ⟨(s.result.map calculate_interest_score).mergeSort scoreLE,
           s.rate_limit_remaining, s.netRequests, s.msgs⟩

end FunctionsPy

namespace MainPy

/-- Function `get_repos` of `main.py` (lines 4-14): `requests.get` (can raise),
`response.raise_for_status()` (raises `HTTPError` for any 4xx/5xx status),
then `response.json()["items"]` (raises `KeyError` if the body has no
`items` key).  There is no exception handler in `main.py`, so every raised
exception propagates to the caller. -/
def get_repos (o : NetOutcome) : Except PyErr (List Repo) :=
  match requestsGet o with
  | .error e => .error e
  | .ok (status, items) =>
    if 400 ≤ status ∧ status < 600 then
      .error (.httpError status)
    else
      match items with
      | some l => .ok l
      | none => .error .keyError

end MainPy

namespace TestPy

/-- The `language_multipliers` dict of `test.py` (lines 118-122).  The
source of `test.py`'s scanner is character-identical to `functions.py`'s;
it is embedded separately so the duplication claim is about two
definitions. -/
def language_multipliers (lang : Option String) : ℚ :=
  match lang with
  | none => 1
  | some s =>
    if s = "JavaScript" then 12/10
    else if s = "Python" then 13/10
    else if s = "TypeScript" then 11/10
    else if s = "Go" then 1
    else if s = "Rust" then 14/10
    else if s = "Swift" then 9/10
    else if s = "Kotlin" then 8/10
    else if s = "Java" then 11/10
    else if s = "C++" then 1
    else if s = "C#" then 9/10
    else if s = "PHP" then 8/10
    else 1

/-- Lines 105-110 of `test.py`: the recency multiplier. -/
def recency_multiplier (days_old : Option ℤ) : ℚ :=
  match days_old with
  | some d => max (1/10) (1 - (d : ℚ) / 365)
  | none => 1/2

/-- Method `GitHubTrendingScanner.calculate_interest_score` of `test.py`
(lines 97-133). -/
def calculate_interest_score (repo : Repo) : ScoredRepo :=
  let base_popularity : ℚ :=
    ((repo.stargazers_count.getD 0 : ℤ) : ℚ) * 1 +
    ((repo.forks_count.getD 0 : ℤ) : ℚ) * 2 +
    ((repo.watchers_count.getD 0 : ℤ) : ℚ) * (3/2)
  let recency := recency_multiplier repo.days_old
  let activity_score : ℚ :=
    ((repo.open_issues_count.getD 0 : ℤ) : ℚ) * (1/10) +
    (if repo.has_wiki.getD false then 10 else 0) +
    ((repo.topics.getD []).length : ℚ) * 5
  let language_boost := language_multipliers repo.language
  let final_score := (base_popularity + activity_score) * recency * language_boost
  { repo := repo
    score := final_score
    reasoning :=
      { pop := base_popularity
        activity := activity_score
        recency := recency
        lang := language_boost } }

/-- Method `GitHubTrendingScanner.search_repositories` of `test.py`
(lines 59-95). -/
def search_repositories (rate_limit_remaining : ℤ) (query : String)
    (o : NetOutcome) : Except PyErr SearchOutput :=
  if rate_limit_remaining ≤ 5 then
    .ok ⟨[], rate_limit_remaining, 0, [.warnRateLimitLow]⟩
  else
    let body : Except PyErr SearchOutput :=
      match requestsGet o with
      | .ok (status, items) =>
        if status = 200 then
          .ok ⟨items.getD [], rate_limit_remaining - 1, 1, []⟩
        else if status = 403 then
          .ok ⟨[], rate_limit_remaining, 1, [.errRateLimitExceeded]⟩
        else if status = 422 then
          .ok ⟨[], rate_limit_remaining, 1, [.errInvalidQuery query]⟩
        else
          .ok ⟨[], rate_limit_remaining, 1, [.errApiError status]⟩
      | .error e => .error e
    match body with
    | .ok out => .ok out
    | .error .timeoutError => .ok ⟨[], rate_limit_remaining, 1, [.errTimeout]⟩
    | .error e => .ok ⟨[], rate_limit_remaining, 1, [.errFetching (PyErr.str e)]⟩

/-- The `queries` dict of `test.py`'s `scan_trending_by_category`
(lines 139-149). -/
def queries (date_threshold : String) (category : String) : Option String :=
  if category = "newly_created" then
    some ("created:>" ++ date_threshold)
  else if category = "recently_active" then
    some ("pushed:>" ++ date_threshold ++ " stars:>10")
  else if category = "hot_topics" then
    some ("good-first-issues:>0 created:>" ++ date_threshold)
  else if category = "ai_ml_trending" then
    some ("topic:machine-learning created:>" ++ date_threshold)
  else if category = "web_dev_trending" then
    some ("topic:react created:>" ++ date_threshold)
  else if category = "devops_trending" then
    some ("topic:docker created:>" ++ date_threshold)
  else if category = "mobile_trending" then
    some ("topic:android created:>" ++ date_threshold)
  else if category = "breaking_out" then
    some ("stars:100..1000 created:>" ++ date_threshold)
  else if category = "hidden_gems" then
    some ("stars:10..100 forks:>5 created:>" ++ date_threshold)
  else
    none

/-- The sort comparison of `test.py`'s `scan_trending_by_category`. -/
def scoreLE (a b : ScoredRepo) : Bool := decide (b.score ≤ a.score)

/-- Method `GitHubTrendingScanner.scan_trending_by_category` of `test.py`
(lines 135-162). -/
def scan_trending_by_category (rate_limit_remaining : ℤ) (category : String)
    (date_threshold : String) (o : NetOutcome) : Except PyErr ScanOutput :=
  match queries date_threshold category with
  | none => .ok ⟨[], rate_limit_remaining, 0, [.errUnknownCategory category]⟩
  | some q =>
    match search_repositories rate_limit_remaining q o with
    | .error e => .error e
    | .ok s =>
      .ok ⟨(s.result.map calculate_interest_score).mergeSort scoreLE,
           s.rate_limit_remaining, s.netRequests, s.msgs⟩

end TestPy

/-- Modelled from the spec: the §4.2 ScoreEngine algorithm, transcribed
from the spec's formula block (`base_popularity = stars*1.0 + forks*2.0 +
watchers*1.5`, `recency_mult = max(0.1, 1.0 - days_old/365)` with `0.5` on
unparsable `created_at`, `activity_score = open_issues*0.1 +
(10 if has_wiki else 0) + topic_count*5`, the fixed eleven-entry
language-boost table with default `1.0`, and
`final_score = (base_popularity + activity_score) * recency_mult *
language_boost`), with missing counts treated as 0.  Used only to compare
against the implementation's `calculate_interest_score`. -/
def specScore (repo : Repo) : ℚ :=
  let stars : ℚ := ((repo.stargazers_count.getD 0 : ℤ) : ℚ)
  let forks : ℚ := ((repo.forks_count.getD 0 : ℤ) : ℚ)
  let watchers : ℚ := ((repo.watchers_count.getD 0 : ℤ) : ℚ)
  let open_issues : ℚ := ((repo.open_issues_count.getD 0 : ℤ) : ℚ)
  let topic_count : ℚ := ((repo.topics.getD []).length : ℚ)
  let base_popularity : ℚ := stars * 1 + forks * 2 + watchers * (3/2)
  let recency_mult : ℚ :=
    match repo.days_old with
    | some days_old => max (1/10) (1 - (days_old : ℚ) / 365)
    | none => 1/2
  let activity_score : ℚ :=
    open_issues * (1/10) +
    (if repo.has_wiki.getD false then 10 else 0) +
    topic_count * 5
  let language_boost : ℚ :=
    match repo.language with
    | none => 1
    | some s =>
      if s = "JavaScript" then 12/10
      else if s = "Python" then 13/10
      else if s = "TypeScript" then 11/10
      else if s = "Go" then 1
      else if s = "Rust" then 14/10
      else if s = "Swift" then 9/10
      else if s = "Kotlin" then 8/10
      else if s = "Java" then 11/10
      else if s = "C++" then 1
      else if s = "C#" then 9/10
      else if s = "PHP" then 8/10
      else 1
  (base_popularity + activity_score) * recency_mult * language_boost

/-! ## Helper lemmas -/

theorem recency_multiplier_ge (d : Option ℤ) :
    (1 : ℚ)/10 ≤ FunctionsPy.recency_multiplier d := by
  cases d with
  | none => norm_num [FunctionsPy.recency_multiplier]
  | some d =>
    simp only [FunctionsPy.recency_multiplier]
    exact le_max_left _ _

theorem language_multipliers_pos (l : Option String) :
    0 < FunctionsPy.language_multipliers l := by
  cases l with
  | none => norm_num [FunctionsPy.language_multipliers]
  | some s =>
    simp only [FunctionsPy.language_multipliers]
    repeat' split
    all_goals norm_num

theorem scoreLE_trans (a b c : ScoredRepo) :
    FunctionsPy.scoreLE a b → FunctionsPy.scoreLE b c → FunctionsPy.scoreLE a c := by
  simp only [FunctionsPy.scoreLE, decide_eq_true_eq]
  exact fun h₁ h₂ => le_trans h₂ h₁

theorem scoreLE_total (a b : ScoredRepo) :
    FunctionsPy.scoreLE a b || FunctionsPy.scoreLE b a := by
  simp only [FunctionsPy.scoreLE, Bool.or_eq_true, decide_eq_true_eq]
  exact le_total b.score a.score

/-- A sample repository record for the concrete witnesses. -/
def repo0 : Repo :=
  { stargazers_count := some 120
    forks_count := some 30
    watchers_count := some 120
    open_issues_count := some 4
    has_wiki := some true
    topics := some ["machine-learning", "python"]
    language := some "Python"
    days_old := some 12 }

/-! ## Claims -/

/-- C1: for every repository record and every fixed current instant
(abstracted into the `days_old` field), `calculate_interest_score` returns
exactly the score of the spec's §4.2 algorithm (`specScore`): base
popularity `stars*1.0 + forks*2.0 + watchers*1.5`, recency multiplier
`max(0.1, 1.0 - days_old/365)` over whole days with `0.5` on unparsable
`created_at`, activity `open_issues*0.1 + (10 if has_wiki else 0) +
topic_count*5`, the fixed eleven-entry language-boost table with default
`1.0`, final score the product, all missing counts defaulted to 0. -/
theorem calculate_interest_score_matches_spec (repo : Repo) :
    (FunctionsPy.calculate_interest_score repo).score = specScore repo := rfl

/-- C6: whenever the (defaulted) stars, forks, watchers and open-issue
counts of a record are all non-negative, the computed interest score is
non-negative, regardless of `created_at`, language, topics or wiki flag. -/
theorem score_nonneg_of_counts_nonneg (repo : Repo)
    (hs : 0 ≤ repo.stargazers_count.getD 0)
    (hf : 0 ≤ repo.forks_count.getD 0)
    (hw : 0 ≤ repo.watchers_count.getD 0)
    (hi : 0 ≤ repo.open_issues_count.getD 0) :
    0 ≤ (FunctionsPy.calculate_interest_score repo).score := by
  have h₁ := recency_multiplier_ge repo.days_old
  have h₂ := language_multipliers_pos repo.language
  have hs' : (0 : ℚ) ≤ ((repo.stargazers_count.getD 0 : ℤ) : ℚ) := by exact_mod_cast hs
  have hf' : (0 : ℚ) ≤ ((repo.forks_count.getD 0 : ℤ) : ℚ) := by exact_mod_cast hf
  have hw' : (0 : ℚ) ≤ ((repo.watchers_count.getD 0 : ℤ) : ℚ) := by exact_mod_cast hw
  have hi' : (0 : ℚ) ≤ ((repo.open_issues_count.getD 0 : ℤ) : ℚ) := by exact_mod_cast hi
  have hwiki : (0 : ℚ) ≤ (if repo.has_wiki.getD false then (10 : ℚ) else 0) := by
    split <;> norm_num
  have htop : (0 : ℚ) ≤ (((repo.topics.getD []).length : ℕ) : ℚ) := by positivity
  simp only [FunctionsPy.calculate_interest_score]
  have hsum : (0 : ℚ) ≤
      ((repo.stargazers_count.getD 0 : ℤ) : ℚ) * 1 +
      ((repo.forks_count.getD 0 : ℤ) : ℚ) * 2 +
      ((repo.watchers_count.getD 0 : ℤ) : ℚ) * (3/2) +
      (((repo.open_issues_count.getD 0 : ℤ) : ℚ) * (1/10) +
       (if repo.has_wiki.getD false then (10 : ℚ) else 0) +
       (((repo.topics.getD []).length : ℕ) : ℚ) * 5) := by linarith
  exact mul_nonneg (mul_nonneg hsum (le_trans (by norm_num) h₁)) h₂.le

theorem score_nonneg_of_counts_nonneg_witness :
    0 ≤ (FunctionsPy.calculate_interest_score repo0).score :=
  score_nonneg_of_counts_nonneg repo0 (by decide) (by decide) (by decide) (by decide)

theorem score_mono_aux (d : Option ℤ) (l : Option String) (b₁ b₂ a : ℚ)
    (hb : b₁ ≤ b₂) :
    (b₁ + a) * FunctionsPy.recency_multiplier d * FunctionsPy.language_multipliers l ≤
    (b₂ + a) * FunctionsPy.recency_multiplier d * FunctionsPy.language_multipliers l := by
  have h₁ : (0 : ℚ) ≤ FunctionsPy.recency_multiplier d :=
    le_trans (by norm_num) (recency_multiplier_ge d)
  have h₂ := (language_multipliers_pos l).le
  exact mul_le_mul_of_nonneg_right (mul_le_mul_of_nonneg_right (by linarith) h₁) h₂

/-- C7: the interest score is monotonically non-decreasing in the stars,
forks and watchers counts, all other fields held fixed at the same fixed
instant. -/
theorem score_monotone_in_counts (repo : Repo) (c₁ c₂ : Option ℤ)
    (h : c₁.getD 0 ≤ c₂.getD 0) :
    (FunctionsPy.calculate_interest_score { repo with stargazers_count := c₁ }).score ≤
      (FunctionsPy.calculate_interest_score { repo with stargazers_count := c₂ }).score ∧
    (FunctionsPy.calculate_interest_score { repo with forks_count := c₁ }).score ≤
      (FunctionsPy.calculate_interest_score { repo with forks_count := c₂ }).score ∧
    (FunctionsPy.calculate_interest_score { repo with watchers_count := c₁ }).score ≤
      (FunctionsPy.calculate_interest_score { repo with watchers_count := c₂ }).score := by
  have hc : ((c₁.getD 0 : ℤ) : ℚ) ≤ ((c₂.getD 0 : ℤ) : ℚ) := by exact_mod_cast h
  refine ⟨?_, ?_, ?_⟩ <;>
  · simp only [FunctionsPy.calculate_interest_score]
    apply score_mono_aux
    linarith

theorem score_monotone_in_counts_witness :
    (FunctionsPy.calculate_interest_score { repo0 with stargazers_count := some 1 }).score ≤
      (FunctionsPy.calculate_interest_score { repo0 with stargazers_count := some 2 }).score :=
  (score_monotone_in_counts repo0 (some 1) (some 2) (by decide)).1

/-- C8: the recency multiplier is `max(0.1, 1 - days_old/365)`: it is
exactly `0.1` for any record at least ten years (3650 whole days) old, it
is never below `0.1` (in particular never negative), it exceeds `1` for
every future-dated record (negative `days_old`), and it has no upper
cap. -/
theorem recency_multiplier_clamped :
    (∀ d : ℤ, FunctionsPy.recency_multiplier (some d) = max (1/10) (1 - (d : ℚ)/365)) ∧
    (∀ d : ℤ, 3650 ≤ d → FunctionsPy.recency_multiplier (some d) = 1/10) ∧
    (∀ x : Option ℤ, (1 : ℚ)/10 ≤ FunctionsPy.recency_multiplier x) ∧
    (∀ d : ℤ, d < 0 → 1 < FunctionsPy.recency_multiplier (some d)) ∧
    (∀ M : ℚ, ∃ d : ℤ, M < FunctionsPy.recency_multiplier (some d)) := by
  refine ⟨fun d => rfl, ?_, recency_multiplier_ge, ?_, ?_⟩
  · intro d hd
    have hd' : (3650 : ℚ) ≤ (d : ℚ) := by exact_mod_cast hd
    have h10 : (10 : ℚ) ≤ (d : ℚ) / 365 := by
      rw [le_div_iff₀ (by norm_num : (0 : ℚ) < 365)]; linarith
    simp only [FunctionsPy.recency_multiplier]
    rw [max_eq_left]; linarith
  · intro d hd
    have hd' : (d : ℚ) < 0 := by exact_mod_cast hd
    have hdiv : (d : ℚ) / 365 < 0 := div_neg_of_neg_of_pos hd' (by norm_num)
    simp only [FunctionsPy.recency_multiplier]
    exact lt_max_iff.mpr (Or.inr (by linarith))
  · intro M
    refine ⟨-(365 * (⌈M⌉ + 1)), ?_⟩
    have hM : M ≤ (⌈M⌉ : ℚ) := Int.le_ceil M
    have hcast : ((-(365 * (⌈M⌉ + 1)) : ℤ) : ℚ) = -(365 * ((⌈M⌉ : ℚ) + 1)) := by
      push_cast; ring
    simp only [FunctionsPy.recency_multiplier, hcast]
    have heq : 1 - (-(365 * ((⌈M⌉ : ℚ) + 1))) / 365 = (⌈M⌉ : ℚ) + 2 := by
      field_simp; ring
    rw [heq]
    exact lt_max_iff.mpr (Or.inr (by linarith))

theorem recency_multiplier_clamped_witness :
    FunctionsPy.recency_multiplier (some 3650) = 1/10 ∧
    1 < FunctionsPy.recency_multiplier (some (-400)) :=
  ⟨recency_multiplier_clamped.2.1 3650 (by norm_num),
   recency_multiplier_clamped.2.2.2.1 (-400) (by norm_num)⟩

/-- C4: a `search_repositories` call made while the local quota counter is
at or below the low-water mark 5 performs no network request and returns
the empty list together with the low-quota warning, leaving the counter
unchanged — for every query, outcome the network would have produced, and
quota value at or below 5. -/
theorem search_low_quota_refused (quota : ℤ) (query : String) (o : NetOutcome)
    (h : quota ≤ 5) :
    FunctionsPy.search_repositories quota query o =
      .ok ⟨[], quota, 0, [.warnRateLimitLow]⟩ := by
  unfold FunctionsPy.search_repositories
  rw [if_pos h]

theorem search_low_quota_refused_witness :
    FunctionsPy.search_repositories 5 "language:python" (.response 200 (some [repo0])) =
      .ok ⟨[], 5, 0, [.warnRateLimitLow]⟩ :=
  search_low_quota_refused 5 "language:python" (.response 200 (some [repo0]))
    (by norm_num)

/-- C5: with the request actually issued (quota above the low-water mark),
`search_repositories` decrements the quota counter by exactly one when and
only when the HTTP response has status 200, in which case it returns the
`items` array of the body (empty if absent); on every other outcome
(403, 422, any other status, timeout, or another network failure) the
counter is unchanged, the result is empty, and one notice is emitted. -/
theorem search_decrements_iff_200 (quota : ℤ) (query : String) (o : NetOutcome)
    (h : 5 < quota) :
    (∀ items : Option (List Repo), o = .response 200 items →
      FunctionsPy.search_repositories quota query o =
        .ok ⟨items.getD [], quota - 1, 1, []⟩) ∧
    ((∀ items : Option (List Repo), o ≠ .response 200 items) →
      ∃ m : Msg, FunctionsPy.search_repositories quota query o =
        .ok ⟨[], quota, 1, [m]⟩) := by
  have hq := not_le.mpr h
  constructor
  · rintro items rfl
    unfold FunctionsPy.search_repositories
    rw [if_neg hq]
    rfl
  · intro hne
    match o with
    | .timeout =>
      refine ⟨.errTimeout, ?_⟩
      unfold FunctionsPy.search_repositories
      rw [if_neg hq]
      rfl
    | .exn msg =>
      refine ⟨.errFetching msg, ?_⟩
      unfold FunctionsPy.search_repositories
      rw [if_neg hq]
      rfl
    | .response s items =>
      have hs : ¬(s = 200) := fun e => hne items (by rw [e])
      unfold FunctionsPy.search_repositories requestsGet
      rw [if_neg hq]
      by_cases h403 : s = 403
      · subst h403
        exact ⟨.errRateLimitExceeded, rfl⟩
      · by_cases h422 : s = 422
        · subst h422
          exact ⟨.errInvalidQuery query, rfl⟩
        · refine ⟨.errApiError s, ?_⟩
          simp only [if_neg hs, if_neg h403, if_neg h422]

theorem search_decrements_iff_200_witness :
    FunctionsPy.search_repositories 60 "language:python"
        (.response 200 (some [repo0])) =
      .ok ⟨[repo0], 60 - 1, 1, []⟩ :=
  (search_decrements_iff_200 60 "language:python"
    (.response 200 (some [repo0])) (by norm_num)).1 (some [repo0]) rfl

/-- C3: for every category string that is not one of the nine fixed
category names, and every lookback window (abstracted by the formatted
date-threshold string), network outcome and quota value,
`scan_trending_by_category` emits the unknown-category error and returns
the empty list, with zero network requests and the quota counter
unchanged. -/
theorem scan_unknown_category_no_work (quota : ℤ)
    (category date_threshold : String) (o : NetOutcome)
    (h : category ∉ ["newly_created", "recently_active", "hot_topics",
      "ai_ml_trending", "web_dev_trending", "devops_trending",
      "mobile_trending", "breaking_out", "hidden_gems"]) :
    FunctionsPy.scan_trending_by_category quota category date_threshold o =
      .ok ⟨[], quota, 0, [.errUnknownCategory category]⟩ := by
  simp only [List.mem_cons, List.not_mem_nil, or_false, not_or] at h
  obtain ⟨h₁, h₂, h₃, h₄, h₅, h₆, h₇, h₈, h₉⟩ := h
  unfold FunctionsPy.scan_trending_by_category FunctionsPy.queries
  rw [if_neg h₁, if_neg h₂, if_neg h₃, if_neg h₄, if_neg h₅, if_neg h₆,
    if_neg h₇, if_neg h₈, if_neg h₉]

theorem scan_unknown_category_no_work_witness :
    FunctionsPy.scan_trending_by_category 60 "unknown_category" "2025-10-05"
        (.response 200 (some [repo0])) =
      .ok ⟨[], 60, 0, [.errUnknownCategory "unknown_category"]⟩ :=
  scan_unknown_category_no_work 60 "unknown_category" "2025-10-05"
    (.response 200 (some [repo0])) (by decide)

/-- C2: for every list of repository records returned by the underlying
search call, `scan_trending_by_category` returns exactly the stable
descending-by-score sort of the scored records: the output is ordered
descending by score, any two records with equal scores keep the relative
order they had in the search result, and the output is a permutation of
the scored search result. -/
theorem scan_sorted_and_stable (quota : ℤ) (category date_threshold q : String)
    (o : NetOutcome) (s : SearchOutput)
    (hq : FunctionsPy.queries date_threshold category = some q)
    (hs : FunctionsPy.search_repositories quota q o = .ok s) :
    FunctionsPy.scan_trending_by_category quota category date_threshold o =
      .ok ⟨(s.result.map FunctionsPy.calculate_interest_score).mergeSort
             FunctionsPy.scoreLE,
           s.rate_limit_remaining, s.netRequests, s.msgs⟩ ∧
    ((s.result.map FunctionsPy.calculate_interest_score).mergeSort
        FunctionsPy.scoreLE).Pairwise (fun a b => b.score ≤ a.score) ∧
    (∀ a b : ScoredRepo, a.score = b.score →
      List.Sublist [a, b] (s.result.map FunctionsPy.calculate_interest_score) →
      List.Sublist [a, b]
        ((s.result.map FunctionsPy.calculate_interest_score).mergeSort
          FunctionsPy.scoreLE)) ∧
    ((s.result.map FunctionsPy.calculate_interest_score).mergeSort
        FunctionsPy.scoreLE).Perm
      (s.result.map FunctionsPy.calculate_interest_score) := by
  refine ⟨?_, ?_, ?_, ?_⟩
  · unfold FunctionsPy.scan_trending_by_category
    simp only [hq, hs]
  · have hp := List.sorted_mergeSort
      (fun a b c => scoreLE_trans a b c) (fun a b => scoreLE_total a b)
      (s.result.map FunctionsPy.calculate_interest_score)
    exact hp.imp fun h => by simpa [FunctionsPy.scoreLE] using h
  · intro a b hab hsub
    refine List.sublist_mergeSort (fun a b c => scoreLE_trans a b c)
      (fun a b => scoreLE_total a b) ?_ hsub
    simp [FunctionsPy.scoreLE, hab]
  · exact List.mergeSort_perm _ _

theorem scan_sorted_and_stable_witness :
    FunctionsPy.scan_trending_by_category 60 "hidden_gems" "2025-10-05"
        (.response 200 (some [])) =
      .ok ⟨[], 60 - 1, 1, []⟩ := by
  have h := (scan_sorted_and_stable 60 "hidden_gems" "2025-10-05"
    "stars:10..100 forks:>5 created:>2025-10-05" (.response 200 (some []))
    ⟨[], 60 - 1, 1, []⟩ rfl rfl).1
  simpa using h

/-- C9 counterexample: the claim says every repository-search operation of
the program handles failures at the point of occurrence and returns a
result list, but `get_repos` of `main.py` propagates the `HTTPError`
raised by `response.raise_for_status()` on a 403 response (even one with a
well-formed body) to its caller, returning no list. -/
theorem get_repos_unhandled_counterexample :
    MainPy.get_repos (.response 403 (some [])) = .error (.httpError 403) := rfl

/-- C9 (amended): the scanner's `search_repositories` (functions.py and,
by C10, test.py) handles every network outcome at the point of occurrence
and returns normally with a result list, but `get_repos` of `main.py`
propagates an unhandled `HTTPError` for every 4xx/5xx response. -/
theorem search_handles_all_failures :
    (∀ (quota : ℤ) (query : String) (o : NetOutcome),
      (FunctionsPy.search_repositories quota query o).isOk = true) ∧
    (∀ (status : ℤ) (items : Option (List Repo)),
      400 ≤ status → status < 600 →
      MainPy.get_repos (.response status items) = .error (.httpError status)) := by
  constructor
  · intro quota query o
    unfold FunctionsPy.search_repositories
    split
    · rfl
    · match o with
      | .timeout => rfl
      | .exn msg => rfl
      | .response s items =>
        by_cases h200 : s = 200
        · subst h200; rfl
        · by_cases h403 : s = 403
          · subst h403; rfl
          · by_cases h422 : s = 422
            · subst h422; rfl
            · simp only [requestsGet, if_neg h200, if_neg h403, if_neg h422]
              rfl
  · intro status items h₁ h₂
    have hred : MainPy.get_repos (.response status items) =
        if 400 ≤ status ∧ status < 600 then .error (.httpError status)
        else match items with
          | some l => .ok l
          | none => .error .keyError := rfl
    rw [hred, if_pos ⟨h₁, h₂⟩]

theorem search_handles_all_failures_witness :
    (FunctionsPy.search_repositories 60 "language:python" .timeout).isOk = true ∧
    MainPy.get_repos (.response 404 (some [repo0])) = .error (.httpError 404) :=
  ⟨search_handles_all_failures.1 60 "language:python" .timeout,
   search_handles_all_failures.2 404 (some [repo0]) (by norm_num) (by norm_num)⟩

/-- C10: the two copies of the scoring and categorization engine, in
`functions.py` and in `test.py`, are extensionally equal: identical score
and reasoning for every record, identical qualifier string for every
category and lookback window, identical search behaviour, and identical
ordered scan output for the same search results. -/
theorem functions_test_copies_equal :
    (∀ repo : Repo, FunctionsPy.calculate_interest_score repo =
      TestPy.calculate_interest_score repo) ∧
    (∀ date_threshold category : String,
      FunctionsPy.queries date_threshold category =
        TestPy.queries date_threshold category) ∧
    (∀ (quota : ℤ) (query : String) (o : NetOutcome),
      FunctionsPy.search_repositories quota query o =
        TestPy.search_repositories quota query o) ∧
    (∀ (quota : ℤ) (category date_threshold : String) (o : NetOutcome),
      FunctionsPy.scan_trending_by_category quota category date_threshold o =
        TestPy.scan_trending_by_category quota category date_threshold o) :=
  ⟨fun _ => rfl, fun _ _ => rfl, fun _ _ _ => rfl, fun _ _ _ _ => rfl⟩

end GithubScout
